import Mathlib

/-!
# Verification of the E2E record/replay engine (content script)

A shallow embedding, in Lean 4, of the core algorithms of the browser
record/replay extension: the selector resolver (`generateSelector`,
`findElementWithRetry`), the visual differ (`compareScreenshots`), and the
replay engine state machine (`replayTest` / `resumeTest` / `forceStopTest` /
`executeTestSteps` / `executeStep`), each translated from `content.js`
together with the background script's execution-state store.

Modelling conventions:
* JS strings are Lean `String`s; JS string truthiness (`if (s)`) is `s ≠ ""`;
  a nullable attribute (`getAttribute` result) is `Option String` and its
  truthiness is `(·.getD "") ≠ ""`.
* The DOM is abstracted as a `Document`: a function from selector strings to
  `Option (List Elem)`, where `none` models `querySelectorAll` throwing on a
  syntactically invalid selector and `some l` the matched elements in
  document order.  CSS matching semantics themselves are not re-implemented;
  the code under verification only observes validity, match lists and match
  counts, all of which factor through this function.
* Wall-clock timeouts (`Date.now()` bounds, `setTimeout` watchdogs, fixed
  delays) are not modelled; with a static DOM every retry attempt observes
  the same state, and the attempt counter is the sole loop bound, as in the
  source whenever the per-attempt delays stay within the overall timeout.
* Images are width/height plus an RGB pixel function; canvas compositing
  onto a cleared canvas yields channel value 0 outside an image's bounds,
  which is what `getImageData` reports for untouched canvas pixels.
-/

namespace E2E

/-! ## DOM element model -/

/-- Ancestor-chain information used by `generateParentBasedSelector`:
for one DOM node, its `nodeName`, `id`, `className`, and the number of
preceding same-tag siblings (so `nth` in the source is this `+ 1`). -/
structure PathNode where
  nodeName : String
  id : String
  className : String
  prevSameTagSiblings : Nat
  deriving Repr, DecidableEq

/-- A DOM element as observed by the selector generator and resolver.
String-valued DOM properties that are `undefined`/absent are `""` (falsy in
JS); `getAttribute` results are `Option String` (`none` for `null`).
`chain` lists the element's own `PathNode` first, then its element-node
ancestors in order, ending where `parentNode` stops being an element. -/
structure Elem where
  tagName : String
  id : String
  name : String
  className : String
  textContent : String
  dataTestid : Option String
  dataCy : Option String
  dataTest : Option String
  ariaLabel : Option String
  role : Option String
  visible : Bool
  chain : List PathNode
  deriving Repr, DecidableEq

/-- The document, abstracted: `queryAll s = none` models `querySelectorAll(s)`
throwing (invalid selector), `queryAll s = some l` the list of matched
elements in document order. -/
structure Document where
  queryAll : String → Option (List Elem)

/-- JS truthiness of a `getAttribute` result: non-null and non-empty. -/
def attrTruthy (a : Option String) : Bool := a.getD "" != ""

/-- JavaScript's `String.prototype.trim`: strip leading and trailing
whitespace.  Defined structurally over the character list so that it
evaluates by reduction (Lean's own `String.trim` is defined by well-founded
recursion on byte positions and does not reduce). -/
def jsTrim (s : String) : String :=
  String.mk (((s.data.dropWhile Char.isWhitespace).reverse.dropWhile
    Char.isWhitespace).reverse)

/-! ## Selector generation (`content.js` `escapeCssIdentifier`,
`isValidSelector`, `isUniqueSelector`, `generateSelector`,
`generateParentBasedSelector`) -/

/-- The character class of the regex
`/[!"#$%&'()*+,./:;<=>?@[\\\]^`\x7b|\x7d~]/` in `escapeCssIdentifier`,
expressed by character code: codes 33-47 except 45 (`-`), 58-64, 91-94,
96, and 123-126. -/
def isCssSpecialChar (c : Char) : Bool :=
  let n := c.toNat
  (33 ≤ n && n ≤ 47 && n != 45) || (58 ≤ n && n ≤ 64) ||
  (91 ≤ n && n ≤ 94) || n == 96 || (123 ≤ n && n ≤ 126)

/-- `escapeCssIdentifier`: prefix every CSS-special character with a
backslash (code 92). -/
def escapeCssIdentifier (identifier : String) : String :=
  String.mk (identifier.data.foldr
    (fun c acc => if isCssSpecialChar c then Char.ofNat 92 :: c :: acc else c :: acc) [])

/-- `isValidSelector`: `document.querySelector` does not throw. -/
def isValidSelector (doc : Document) (selector : String) : Bool :=
  (doc.queryAll selector).isSome

/-- `isUniqueSelector`: `querySelectorAll(selector).length === 1`
(`false` when the query throws). -/
def isUniqueSelector (doc : Document) (selector : String) : Bool :=
  match doc.queryAll selector with
  | some l => l.length == 1
  | none => false

/-- The `isValidSelector(s) && isUniqueSelector(s)` acceptance test used by
every generation strategy. -/
def validUnique (doc : Document) (selector : String) : Bool :=
  isValidSelector doc selector && isUniqueSelector doc selector

/-- An attribute-equality selector literal `[attr="value"]`. -/
def attrSelector (attr value : String) : String :=
  "[" ++ attr ++ "=\"" ++ value ++ "\"]"

/-- Priority 4 of `generateSelector`: the `for (const attr of
stableAttributes)` loop over `data-cy`, `data-test`, `aria-label`, `role`,
returning the first truthy attribute whose selector is valid and unique. -/
def stableAttrCandidate (doc : Document) (e : Elem) : Option String :=
  [("data-cy", e.dataCy), ("data-test", e.dataTest),
   ("aria-label", e.ariaLabel), ("role", e.role)].findSome? fun p =>
    if attrTruthy p.2 then
      let s := attrSelector p.1 (p.2.getD "")
      if validUnique doc s then some s else none
    else none

/-- `element.className.split(' ').filter(c => c.trim()).map(escapeCssIdentifier)`. -/
def classListOf (className : String) : List String :=
  ((className.split (· = ' ')).filter (fun c => jsTrim c != "")).map escapeCssIdentifier

/-- A class-combination selector `.c1.c2...` from a list of classes. -/
def classSelector (classes : List String) : String :=
  "." ++ String.intercalate "." classes

/-- Priority 5's sliding-window candidates, in the source's loop order:
window length `i` from `min 3 classes.length` down to `1`, start `j` from
`0` to `classes.length - i`. -/
def classComboCandidates (classes : List String) : List String :=
  (((List.range (min 3 classes.length)).map
      (fun k => min 3 classes.length - k)).flatMap fun i =>
    (List.range (classes.length - i + 1)).map fun j =>
      classSelector ((classes.drop j).take i))

/-- Priority 5 of `generateSelector`: the full class list first, then the
sliding-window combinations, accepting the first valid-and-unique one. -/
def classCandidate (doc : Document) (e : Elem) : Option String :=
  if e.className != "" then
    let classes := classListOf e.className
    if classes.length > 0 then
      (classSelector classes :: classComboCandidates classes).find?
        (fun s => validUnique doc s)
    else none
  else none

/-- One segment of `generateParentBasedSelector`'s path for a node that has
no `id`: tag name, up to two (escaped) classes, and `:nth-child(n)` when
`1 < n ≤ 10` where `n` counts same-tag previous siblings plus one. -/
def pathSegment (n : PathNode) : String :=
  let base := n.nodeName.toLower
  let withClasses :=
    if n.className != "" then
      let classes := classListOf n.className
      if classes.length > 0 then
        base ++ "." ++ String.intercalate "." (classes.take (min 2 classes.length))
      else base
    else base
  let nth := n.prevSameTagSiblings + 1
  if 1 < nth && nth ≤ 10 then
    withClasses ++ ":nth-child(" ++ toString nth ++ ")"
  else withClasses

/-- The `while` loop of `generateParentBasedSelector`, producing segments in
iteration order (element first); `path.unshift` in the source reverses this
order.  The walk stops at a node with an `id` (after emitting
`tag#id`), at the end of the element-ancestor chain, or at `maxDepth`. -/
def pathSegments : List PathNode → Nat → List String
  | _, 0 => []
  | [], _ => []
  | n :: rest, depth + 1 =>
    if n.id != "" then
      [n.nodeName.toLower ++ "#" ++ escapeCssIdentifier n.id]
    else
      pathSegment n :: pathSegments rest depth

/-- `generateParentBasedSelector`: join the (reversed) path with `" > "`;
fall back to the bare tag name if the result is not a valid selector. -/
def generateParentBasedSelector (doc : Document) (e : Elem) (maxDepth : Nat) : String :=
  let fullSelector := String.intercalate " > " (pathSegments e.chain maxDepth).reverse
  if !(isValidSelector doc fullSelector) then e.tagName.toLower
  else fullSelector

/-- `generateSelector`, translated branch for branch from `content.js`:
priority 1 `#id`, priority 2 `[data-testid="…"]`, priority 3 `[name="…"]`,
priority 4 the stable-attribute loop (`data-cy`, `data-test`, `aria-label`,
`role`), priority 5 class combinations, priority 6 `tag:contains("text")`
for short text, priority 7 the parent-based structural path. -/
def generateSelector (doc : Document) (e : Elem) : String :=
  let idSel := "#" ++ escapeCssIdentifier e.id
  if e.id != "" && validUnique doc idSel then idSel
  else
    let testIdSel := attrSelector "data-testid" (e.dataTestid.getD "")
    if attrTruthy e.dataTestid && validUnique doc testIdSel then testIdSel
    else
      let nameSel := attrSelector "name" e.name
      if e.name != "" && validUnique doc nameSel then nameSel
      else
        match stableAttrCandidate doc e with
        | some s => s
        | none =>
          match classCandidate doc e with
          | some s => s
          | none =>
            let text := jsTrim e.textContent
            let textSel := e.tagName.toLower ++ ":contains(\"" ++
              (text.replace "\"" "\\\"") ++ "\")"
            if text != "" && text.length < 50 && validUnique doc textSel then
              textSel
            else generateParentBasedSelector doc e 5

/-! ## Selector resolution (`content.js` `findElementWithRetry`,
`waitForElementToBeVisible`)

The DOM is static during resolution, so the visibility poll reduces to the
element's visibility predicate and every retry attempt computes the same
result; the retry count is still carried explicitly so that "fails fast
without entering the retry loop" is expressible. -/

/-- `waitForElementToBeVisible` on a static DOM: the bounded 100ms poll of
`getBoundingClientRect` / `visibility` / `display` either succeeds at once
or times out, i.e. it returns the element's visibility. -/
def waitForElementToBeVisible (e : Elem) : Bool := e.visible

/-- Truthiness of `expectedText && expectedText.trim()`. -/
def expectedTextTruthy (expectedText : Option String) : Bool :=
  jsTrim (expectedText.getD "") != ""

/-- One attempt of `findElementWithRetry`'s `while` body: query all matches,
filter by trimmed text content when `expectedText` is truthy (taking the
first match in document order, as the `for…of` with `break` does) or take
the first element otherwise, then require visibility when `waitForElement`
is set.  `none` means the attempt falls through to the next retry. -/
def attemptFind (doc : Document) (selector : String) (expectedText : Option String)
    (waitForElement : Bool) : Option Elem :=
  match doc.queryAll selector with
  | none => none
  | some elements =>
    if elements.length > 0 then
      let element :=
        if expectedTextTruthy expectedText then
          elements.find? fun el => jsTrim el.textContent == expectedText.getD ""
        else elements.head?
      match element with
      | some el =>
        if waitForElement then
          if waitForElementToBeVisible el then some el else none
        else some el
      | none => none
    else none

/-- The retry loop of `findElementWithRetry`: run `attemptFind` up to the
remaining number of attempts, returning the found element together with the
number of attempts performed. -/
def retryLoop (doc : Document) (selector : String) (expectedText : Option String)
    (waitForElement : Bool) : Nat → Nat → Option Elem × Nat
  | 0, used => (none, used)
  | remaining + 1, used =>
    match attemptFind doc selector expectedText waitForElement with
    | some el => (some el, used + 1)
    | none => retryLoop doc selector expectedText waitForElement remaining (used + 1)

/-- `findElementWithRetry`: validate the selector first and return `null`
immediately (0 attempts) when invalid; otherwise run the retry loop with
`maxAttempts` attempts.  The result is the resolved element (or `none`)
paired with the number of query attempts performed. -/
def findElementWithRetry (doc : Document) (selector : String)
    (expectedText : Option String) (maxAttempts : Nat := 5)
    (waitForElement : Bool := true) : Option Elem × Nat :=
  if !(isValidSelector doc selector) then (none, 0)
  else retryLoop doc selector expectedText waitForElement maxAttempts 0

/-- On a static DOM the retry loop is determined by a single attempt:
success on the first try, or failure after all attempts. -/
theorem retryLoop_const (doc : Document) (selector : String)
    (expectedText : Option String) (waitForElement : Bool) :
    ∀ remaining used, retryLoop doc selector expectedText waitForElement remaining used =
      match attemptFind doc selector expectedText waitForElement with
      | some el => if remaining = 0 then (none, used) else (some el, used + 1)
      | none => (none, used + remaining) := by
  intro remaining
  induction remaining with
  | zero => intro used; cases h : attemptFind doc selector expectedText waitForElement <;>
      simp [retryLoop]
  | succ n ih =>
    intro used
    cases h : attemptFind doc selector expectedText waitForElement with
    | none =>
      simp only [retryLoop, h, ih]
      simp [h]
      omega
    | some el => simp [retryLoop, h]

/-! ## Visual differ (`content.js` `compareScreenshots`)

An image is its decoded pixel buffer: width, height and an RGB pixel
function.  Drawing an image at `(0, 0)` on a cleared canvas of the maximum
dimensions leaves untouched canvas pixels at channel value 0, which is what
`getImageData` reports there.  The JS per-pixel mean `(rDiff+gDiff+bDiff)/3`
is float division, so the threshold test is carried out in `ℚ`. -/

/-- A decoded image: dimensions and an RGB pixel buffer. -/
structure Image where
  width : Nat
  height : Nat
  pixel : Nat → Nat → Nat × Nat × Nat

/-- The canvas content after `clearRect` + `drawImage(img, 0, 0)` on a
canvas of size `w × h`: the image's pixel inside its bounds, transparent
black (channel value 0) outside. -/
def canvasPixel (img : Image) (x y : Nat) : Nat × Nat × Nat :=
  if x < img.width && y < img.height then img.pixel x y else (0, 0, 0)

/-- `Math.abs(a - b)` on channel values. -/
def channelDiff (a b : Nat) : Nat := max a b - min a b

/-- The source's per-pixel test: `(rDiff + gDiff + bDiff) / 3 > 10` in
floating point, i.e. the rational mean of the channel differences exceeds
10. -/
def pixelDiffers (p q : Nat × Nat × Nat) : Prop :=
  ((channelDiff p.1 q.1 + channelDiff p.2.1 q.2.1 + channelDiff p.2.2 q.2.2 : ℚ) / 3) > 10

/-- Since the channel sum is at most 765, the float comparison
`(rDiff + gDiff + bDiff) / 3 > 10` is exact and equivalent to the integer
comparison `rDiff + gDiff + bDiff > 30`. -/
theorem pixelDiffers_iff (p q : Nat × Nat × Nat) :
    pixelDiffers p q ↔
      30 < channelDiff p.1 q.1 + channelDiff p.2.1 q.2.1 + channelDiff p.2.2 q.2.2 := by
  unfold pixelDiffers
  rw [gt_iff_lt, lt_div_iff₀ (by norm_num : (0 : ℚ) < 3)]
  constructor
  · intro h
    exact_mod_cast h
  · intro h
    exact_mod_cast h

instance (p q : Nat × Nat × Nat) : Decidable (pixelDiffers p q) :=
  decidable_of_iff _ (pixelDiffers_iff p q).symm

/-- The source's pixel loop (`for (let i = 0; i < data.length; i += 4)`)
counts differing pixels in row-major order: data index `4 * idx` is pixel
`(idx % w, idx / w)`. -/
def diffPixelCount (baseline current : Image) (w h : Nat) : Nat :=
  (List.range (w * h)).countP fun idx =>
    decide (pixelDiffers (canvasPixel baseline (idx % w) (idx / w))
      (canvasPixel current (idx % w) (idx / w)))

/-- The Visual Diff Result produced by one comparison: the two inputs, the
composited diff visualization (differing pixels as semi-transparent red
RGBA `(255,0,0,128)`, unchanged pixels as the current image at alpha 50),
and the difference statistics. -/
structure DiffResult where
  baseline : Image
  current : Image
  diff : Nat → Nat → Nat × Nat × Nat × Nat
  differencePercentage : ℚ
  diffPixels : Nat
  totalPixels : Nat

/-- `compareScreenshots` on two decoded images: size the canvas to the
maximum width/height, reject dimensions outside `(0, 5000]` with the
`Invalid image dimensions` error, count differing pixels, and return
`differencePercentage = diffPixels / totalPixels * 100` together with the
diff visualization.  (`Except.error` models the promise rejection; the
decode/timeout rejection paths concern images that never decode and are
outside this model.) -/
def compareScreenshots (baseline current : Image) : Except String DiffResult :=
  let width := max baseline.width current.width
  let height := max baseline.height current.height
  if width = 0 || height = 0 || width > 5000 || height > 5000 then
    .error ("Invalid image dimensions: " ++ toString width ++ "x" ++ toString height)
  else
    let diffPixels := diffPixelCount baseline current width height
    let totalPixels := width * height
    .ok {
      baseline := baseline
      current := current
      diff := fun x y =>
        let b := canvasPixel baseline x y
        let c := canvasPixel current x y
        if pixelDiffers b c then (255, 0, 0, 128) else (c.1, c.2.1, c.2.2, 50)
      differencePercentage := (diffPixels : ℚ) / (totalPixels : ℚ) * 100
      diffPixels := diffPixels
      totalPixels := totalPixels }

/-! Spec-side restatement of the differ, used to check the implementation
against the specification's words ("decode both images to pixel buffers at
a canvas sized to the maximum width/height of the two; for each pixel,
compute the mean absolute difference across the three color channels; a
pixel is 'different' if this mean exceeds a fixed intensity threshold (10);
`differencePercentage = differentPixels / totalPixels * 100`"). -/

/-- Spec's words: the set of pixels `(x, y)` of the maximum-sized canvas
whose mean absolute channel difference exceeds 10. -/
def specDifferentPixels (baseline current : Image) (w h : Nat) : Finset (Nat × Nat) :=
  (Finset.range w ×ˢ Finset.range h).filter fun p =>
    pixelDiffers (canvasPixel baseline p.1 p.2) (canvasPixel current p.1 p.2)

/-- Spec's words: `differencePercentage = differentPixels / totalPixels * 100`
on the maximum-sized canvas. -/
def specDifferencePercentage (baseline current : Image) : ℚ :=
  let w := max baseline.width current.width
  let h := max baseline.height current.height
  ((specDifferentPixels baseline current w h).card : ℚ) / ((w * h : Nat) : ℚ) * 100

/-- Counting over `List.range` agrees with the cardinality of the filtered
`Finset.range`. -/
theorem countP_range_eq_card_filter (P : Nat → Prop) [DecidablePred P] (n : Nat) :
    (List.range n).countP (fun i => decide (P i)) = ((Finset.range n).filter P).card := by
  induction n with
  | zero => simp
  | succ m ih =>
    rw [List.range_succ, List.countP_append, Finset.range_succ, Finset.filter_insert]
    by_cases h : P m
    · rw [if_pos h, Finset.card_insert_of_not_mem (by simp)]
      simp [List.countP_cons, ih, h]
    · rw [if_neg h]
      simp [List.countP_cons, ih, h]

/-- The row-major pixel loop counts exactly the spec's set of differing
pixels: the index map `idx ↦ (idx % w, idx / w)` is a bijection from
`range (w * h)` onto the canvas pixel grid. -/
theorem diffPixelCount_eq_card (baseline current : Image) (w h : Nat) (hw : 0 < w) :
    diffPixelCount baseline current w h =
      (specDifferentPixels baseline current w h).card := by
  classical
  unfold diffPixelCount specDifferentPixels
  rw [countP_range_eq_card_filter
    (fun idx => pixelDiffers (canvasPixel baseline (idx % w) (idx / w))
      (canvasPixel current (idx % w) (idx / w))) (w * h)]
  refine Finset.card_nbij' (fun i => (i % w, i / w)) (fun p => p.2 * w + p.1) ?_ ?_ ?_ ?_
  · intro a ha
    simp only [Finset.mem_filter, Finset.mem_range] at ha
    simp only [Finset.mem_filter, Finset.mem_product, Finset.mem_range]
    refine ⟨⟨Nat.mod_lt a hw, ?_⟩, ha.2⟩
    exact Nat.div_lt_of_lt_mul (by omega)
  · intro p hp
    simp only [Finset.mem_filter, Finset.mem_product, Finset.mem_range] at hp
    obtain ⟨⟨hx, hy⟩, hq⟩ := hp
    have hxw : (p.2 * w + p.1) % w = p.1 := by
      rw [Nat.mul_comm, Nat.mul_add_mod, Nat.mod_eq_of_lt hx]
    have hyw : (p.2 * w + p.1) / w = p.2 := by
      rw [Nat.mul_comm, Nat.mul_add_div hw, Nat.div_eq_of_lt hx, Nat.add_zero]
    simp only [Finset.mem_filter, Finset.mem_range]
    constructor
    · calc p.2 * w + p.1 < p.2 * w + w := by omega
        _ = (p.2 + 1) * w := by ring
        _ ≤ h * w := Nat.mul_le_mul_right w (by omega)
        _ = w * h := Nat.mul_comm h w
    · rw [hxw, hyw]; exact hq
  · intro a ha
    show a / w * w + a % w = a
    rw [Nat.mul_comm]
    exact Nat.div_add_mod a w
  · intro p hp
    simp only [Finset.mem_filter, Finset.mem_product, Finset.mem_range] at hp
    obtain ⟨⟨hx, _⟩, _⟩ := hp
    have hxw : (p.2 * w + p.1) % w = p.1 := by
      rw [Nat.mul_comm, Nat.mul_add_mod, Nat.mod_eq_of_lt hx]
    have hyw : (p.2 * w + p.1) / w = p.2 := by
      rw [Nat.mul_comm, Nat.mul_add_div hw, Nat.div_eq_of_lt hx, Nat.add_zero]
    show ((p.2 * w + p.1) % w, (p.2 * w + p.1) / w) = p
    rw [hxw, hyw]

/-- A pixel never differs from itself: all channel differences are 0. -/
theorem pixelDiffers_self (p : Nat × Nat × Nat) : ¬ pixelDiffers p p := by
  unfold pixelDiffers channelDiff
  simp only [Nat.max_self, Nat.min_self, Nat.sub_self, Nat.cast_zero, add_zero, zero_add]
  norm_num

/-- The per-pixel test is symmetric in the two images. -/
theorem pixelDiffers_comm (p q : Nat × Nat × Nat) :
    pixelDiffers p q ↔ pixelDiffers q p := by
  unfold pixelDiffers channelDiff
  rw [Nat.max_comm, Nat.min_comm, Nat.max_comm q.2.1, Nat.min_comm q.2.1,
    Nat.max_comm q.2.2, Nat.min_comm q.2.2]

/-- At most every canvas pixel differs. -/
theorem diffPixelCount_le (baseline current : Image) (w h : Nat) :
    diffPixelCount baseline current w h ≤ w * h := by
  unfold diffPixelCount
  calc (List.range (w * h)).countP _ ≤ (List.range (w * h)).length := List.countP_le_length _
    _ = w * h := List.length_range (w * h)

/-- Comparing an image with itself marks no pixel as different. -/
theorem diffPixelCount_self (img : Image) (w h : Nat) :
    diffPixelCount img img w h = 0 := by
  unfold diffPixelCount
  rw [List.countP_eq_zero]
  intro a _
  simpa using pixelDiffers_self (canvasPixel img (a % w) (a / w))

/-- The pixel count is symmetric in baseline and current. -/
theorem diffPixelCount_comm (baseline current : Image) (w h : Nat) :
    diffPixelCount baseline current w h = diffPixelCount current baseline w h := by
  unfold diffPixelCount
  apply List.countP_congr
  intro a _
  simp only [decide_eq_true_eq]
  exact pixelDiffers_comm _ _

/-! ## Replay engine (`content.js` `replayTest`, `resumeTest`,
`forceStopTest`, `executeTestSteps`, `executeStep`, `handleTestSuccess`,
`handleTestFailure`, `cleanupTestExecution`, `saveTestExecutionState`,
and the background script's `testExecution_<tabId>` store)

The model covers one tab: one content-script instance plus the background
store entry keyed by that tab.  UI-only effects (overlay text, highlight,
indicators, result modal) and wall-clock timers (the 10s watchdog, the
fixed inter-step delays) are not modelled.  Screenshot capture and the
user-adjudicated visual policy cross the transport/user boundary, so the
modelled steps carry no baseline image: `executeStep`'s screenshot branch
follows its no-comparison path and element steps follow their
no-baseline path.  Navigation assigning `window.location.href` tears the
execution context down (the spec's discontinuity), so a navigating step
ends the run with a `navigationPending` outcome; the persisted Execution
State is what survives. -/

/-- The step kinds of the recorder/replayer. -/
inductive StepType
  | click
  | input
  | change
  | keypress
  | navigation
  | screenshot
  deriving Repr, DecidableEq

/-- A recorded step, with absent string fields as `""` (falsy). -/
structure Step where
  type : StepType
  selector : String := ""
  text : Option String := none
  value : String := ""
  key : String := ""
  action : String := ""
  toUrl : String := ""
  deriving Repr, DecidableEq

/-- A named Step Sequence. -/
structure TestData where
  name : String
  steps : List Step
  deriving Repr, DecidableEq

/-- The page the content script drives: current URL plus DOM. -/
structure Page where
  url : String
  doc : Document

/-- The background's persisted per-tab Execution State
(`testExecution_<tabId>`): test data plus resume index.  (`startTime` and
the save `timestamp` are wall-clock metadata and not modelled.) -/
structure ExecState where
  testData : TestData
  currentStepIndex : Nat
  deriving DecidableEq

/-- The replay-relevant state of one tab: the content script's flags and
the background store entry for the tab. -/
structure EngineState where
  isReplaying : Bool
  isTestInterrupted : Bool
  currentExecutionId : Option String
  store : Option ExecState
  page : Page

/-- Observable messages/side effects emitted during replay, in order:
`chrome.runtime.sendMessage` notifications and the execution of a step's
action. -/
inductive Event
  | progress (currentStep : Nat)
  | stepExecuted (idx : Nat)
  | testCompletedMsg (executionId : Option String) (forceStopped : Bool)
  | testFailedMsg (executionId : Option String) (msg : String)
  deriving Repr, DecidableEq

/-- The outcome of `executeStep`: normal return, navigation (context
teardown), or a thrown `Error` with its message. -/
inductive StepEffect
  | ok
  | navigated (url : String)
  | thrown (msg : String)
  deriving Repr, DecidableEq

/-- How a run of `executeTestSteps` ends: all steps done (success handler
ran), returned early on cancellation/interruption, suspended on
navigation, or a step threw. -/
inductive RunEnd
  | completed
  | halted
  | navigationPending (url : String)
  | errored (msg : String)
  deriving Repr, DecidableEq

/-- `executeStep` (one step, given the current page and the interruption
flag).  Screenshot steps take the no-baseline/no-comparison path;
navigation steps navigate exactly when `toUrl` is truthy and differs from
the current URL (in both the `action === 'start'` branch and the general
branch); element steps resolve through `findElementWithRetry` with the
step's `text` as expected text and throw the element-not-found `Error`
when resolution returns `null`.  Native event dispatch itself is modelled
as succeeding. -/
def executeStep (page : Page) (interrupted : Bool) (step : Step) : StepEffect :=
  if interrupted then .thrown "Test execution was interrupted"
  else match step.type with
  | .screenshot => .ok
  | .navigation =>
    if step.action == "start" then
      if step.toUrl != "" && step.toUrl != page.url then .navigated step.toUrl
      else .ok
    else if step.toUrl != "" && step.toUrl != page.url then .navigated step.toUrl
    else .ok
  | _ =>
    match (findElementWithRetry page.doc step.selector step.text 5 true).1 with
    | none => .thrown ("Element not found after retries: " ++ step.selector)
    | some _ => .ok

/-- `saveTestExecutionState`: the background writes the per-tab Execution
State entry. -/
def saveTestExecutionState (test : TestData) (currentStepIndex : Nat)
    (st : EngineState) : EngineState :=
  { st with store := some { testData := test, currentStepIndex := currentStepIndex } }

/-- `cleanupTestExecution`: clear the store entry and reset the replay
flags. -/
def cleanupTestExecution (st : EngineState) : EngineState :=
  { st with store := none, isReplaying := false, isTestInterrupted := false }

/-- `handleTestSuccess`: reset flags, notify `testCompleted` with the
finished run's execution id, then `cleanupTestExecution`. -/
def handleTestSuccess (st : EngineState) : EngineState × List Event :=
  let completedExecutionId := st.currentExecutionId
  (cleanupTestExecution
    { st with isReplaying := false, isTestInterrupted := false,
              currentExecutionId := none },
   [.testCompletedMsg completedExecutionId false])

/-- `handleTestFailure`: reset the in-memory flags and notify
`testFailed` — faithfully to the source, it does **not** clear the
persisted per-tab Execution State (no `clearTestExecutionState` message is
sent on this path; the `cleanupTestExecutionSync` helper that would send it
is never called). -/
def handleTestFailure (msg : String) (st : EngineState) : EngineState × List Event :=
  let failedExecutionId := st.currentExecutionId
  ({ st with isReplaying := false, isTestInterrupted := false,
             currentExecutionId := none },
   [.testFailedMsg failedExecutionId msg])

/-- `forceResetReplayState`: reset flags and clear the store entry. -/
def forceResetReplayState (st : EngineState) : EngineState :=
  { st with isReplaying := false, isTestInterrupted := false,
            currentExecutionId := none, store := none }

/-- `forceStopTest`: ignore the signal when a truthy requested execution id
mismatches a truthy current one, or when nothing is replaying; otherwise
set the interruption flag, reset the replay state, clear the store entry
and notify with a force-stopped `testCompleted` message.  (The delayed
1-second reset of the interruption flag is a timer and is not modelled.) -/
def forceStopTest (executionId : Option String) (st : EngineState) :
    EngineState × List Event :=
  if executionId.getD "" != "" && st.currentExecutionId.getD "" != "" &&
      st.currentExecutionId != executionId then (st, [])
  else if !st.isReplaying then (st, [])
  else
    ({ st with isTestInterrupted := true, isReplaying := false,
               currentExecutionId := none, store := none },
     [.testCompletedMsg executionId true])

/-- Delivery of a scheduled external stop signal at a step boundary:
`stop = some (j, sid)` invokes `forceStopTest sid` when the loop is about
to consider absolute step index `j`. -/
def applyStop (stop : Option (Nat × Option String)) (i : Nat)
    (st : EngineState) : EngineState × List Event :=
  match stop with
  | some (j, sid) => if j = i then forceStopTest sid st else (st, [])
  | none => (st, [])

/-- The `for` loop of `executeTestSteps` over the remaining steps, with `i`
the absolute index of the head of `rem`.  Per iteration: deliver any
scheduled stop signal, check `!isReplaying || isTestInterrupted` (return
without throwing when set), persist Execution State at index `i + 1`
*before* executing step `i`, send a progress message, then run the step;
a thrown step aborts the loop (re-thrown to the caller), a navigating step
ends the execution context.  When the loop exhausts the steps,
`handleTestSuccess` runs. -/
def runSteps (test : TestData) (stop : Option (Nat × Option String)) :
    List Step → Nat → EngineState → EngineState × List Event × RunEnd
  | [], i, st =>
    let s := applyStop stop i st
    let p := handleTestSuccess s.1
    (p.1, s.2 ++ p.2, .completed)
  | step :: rem, i, st =>
    let s := applyStop stop i st
    let st1 := s.1
    if !st1.isReplaying || st1.isTestInterrupted then (st1, s.2, .halted)
    else
      let st2 := saveTestExecutionState test (i + 1) st1
      match executeStep st2.page st2.isTestInterrupted step with
      | .thrown msg => (st2, s.2 ++ [.progress (i + 1)], .errored msg)
      | .navigated u =>
        ({ st2 with page := { st2.page with url := u } },
         s.2 ++ [.progress (i + 1), .stepExecuted i], .navigationPending u)
      | .ok =>
        let r := runSteps test stop rem (i + 1) st2
        (r.1, s.2 ++ [.progress (i + 1), .stepExecuted i] ++ r.2.1, r.2.2)

/-- `executeTestSteps` from a starting index. -/
def executeTestSteps (test : TestData) (startStepIndex : Nat)
    (stop : Option (Nat × Option String)) (st : EngineState) :
    EngineState × List Event × RunEnd :=
  runSteps test stop (test.steps.drop startStepIndex) startStepIndex st

/-- The caller-visible outcome of a replay request. -/
inductive ReplayResult
  | rejected
  | ran (outcome : RunEnd)
  deriving Repr, DecidableEq

/-- `replayTest`: reject a request while a replay is in progress; otherwise
clear the interruption flag, record the execution id, set `isReplaying`,
and run the steps from index 0.  A thrown error is caught by
`handleTestFailure`; the `finally` block's defensive
`forceResetReplayState` runs only if `isReplaying` is somehow still set
(navigation tears the context down before `finally`). -/
def replayTest (test : TestData) (executionId : Option String)
    (stop : Option (Nat × Option String)) (st : EngineState) :
    EngineState × List Event × ReplayResult :=
  if st.isReplaying then (st, [], .rejected)
  else
    let st1 := { st with isTestInterrupted := false,
                         currentExecutionId := executionId,
                         isReplaying := true }
    let r := executeTestSteps test 0 stop st1
    match r.2.2 with
    | .errored msg =>
      let p := handleTestFailure msg r.1
      let stf := if p.1.isReplaying then forceResetReplayState p.1 else p.1
      (stf, r.2.1 ++ p.2, .ran (.errored msg))
    | .navigationPending u => (r.1, r.2.1, .ran (.navigationPending u))
    | out =>
      let stf := if r.1.isReplaying then forceResetReplayState r.1 else r.1
      (stf, r.2.1, .ran out)

/-- `resumeTest`: ignore when already replaying; otherwise clear the
interruption flag, set `isReplaying` and continue from the persisted
`currentStepIndex` (the execution id is not restored by the source). -/
def resumeTest (executionState : ExecState) (stop : Option (Nat × Option String))
    (st : EngineState) : EngineState × List Event × ReplayResult :=
  if st.isReplaying then (st, [], .rejected)
  else
    let st1 := { st with isTestInterrupted := false, isReplaying := true }
    let r := executeTestSteps executionState.testData
      executionState.currentStepIndex stop st1
    match r.2.2 with
    | .errored msg =>
      let p := handleTestFailure msg r.1
      (p.1, r.2.1 ++ p.2, .ran (.errored msg))
    | out => (r.1, r.2.1, .ran out)

/-! ## Engine lemmas -/

/-- `forceStopTest` emits no event or exactly one force-stopped
`testCompleted` message. -/
theorem forceStopTest_events (sid : Option String) (st : EngineState) :
    (forceStopTest sid st).2 = [] ∨
      (forceStopTest sid st).2 = [.testCompletedMsg sid true] := by
  unfold forceStopTest
  split
  · exact Or.inl rfl
  · split
    · exact Or.inl rfl
    · exact Or.inr rfl

/-- Stop-signal delivery emits no `stepExecuted` event. -/
theorem applyStop_no_stepExecuted (stop : Option (Nat × Option String)) (i : Nat)
    (st : EngineState) (k : Nat) :
    Event.stepExecuted k ∉ (applyStop stop i st).2 := by
  unfold applyStop
  match stop with
  | none => simp
  | some (j, sid) =>
    by_cases h : j = i
    · simp only [h, if_pos rfl]
      rcases forceStopTest_events sid st with he | he <;> simp [he]
    · simp [h]

/-- Stop-signal delivery emits no failure report. -/
theorem applyStop_no_testFailed (stop : Option (Nat × Option String)) (i : Nat)
    (st : EngineState) (id2 : Option String) (m : String) :
    Event.testFailedMsg id2 m ∉ (applyStop stop i st).2 := by
  unfold applyStop
  match stop with
  | none => simp
  | some (j, sid) =>
    by_cases h : j = i
    · simp only [h, if_pos rfl]
      rcases forceStopTest_events sid st with he | he <;> simp [he]
    · simp [h]

/-- Every step executed by the loop has index at least the starting
index. -/
theorem runSteps_stepExecuted_ge (test : TestData)
    (stop : Option (Nat × Option String)) :
    ∀ rem i st k, Event.stepExecuted k ∈ (runSteps test stop rem i st).2.1 →
      i ≤ k := by
  intro rem
  induction rem with
  | nil =>
    intro i st k hk
    simp only [runSteps, handleTestSuccess, List.mem_append] at hk
    rcases hk with hk | hk
    · exact absurd hk (applyStop_no_stepExecuted stop i st k)
    · simp at hk
  | cons step rem ih =>
    intro i st k hk
    simp only [runSteps] at hk
    split at hk
    · exact absurd hk (applyStop_no_stepExecuted stop i st k)
    · split at hk
      · rcases List.mem_append.mp hk with hk | hk
        · exact absurd hk (applyStop_no_stepExecuted stop i st k)
        · simp at hk
      · rcases List.mem_append.mp hk with hk | hk
        · exact absurd hk (applyStop_no_stepExecuted stop i st k)
        · simp at hk
          omega
      · rcases List.mem_append.mp hk with hk | hk
        · rcases List.mem_append.mp hk with hk | hk
          · exact absurd hk (applyStop_no_stepExecuted stop i st k)
          · simp at hk
            omega
        · have := ih (i + 1) _ k hk
          omega

/-- The step loop itself never emits a failure report: `testFailed` is sent
only by `handleTestFailure`, which lives in the loop's callers. -/
theorem runSteps_no_testFailed (test : TestData)
    (stop : Option (Nat × Option String)) :
    ∀ rem i st id2 m, Event.testFailedMsg id2 m ∉ (runSteps test stop rem i st).2.1 := by
  intro rem
  induction rem with
  | nil =>
    intro i st id2 m hk
    simp only [runSteps, handleTestSuccess, List.mem_append] at hk
    rcases hk with hk | hk
    · exact absurd hk (applyStop_no_testFailed stop i st id2 m)
    · simp at hk
  | cons step rem ih =>
    intro i st id2 m hk
    simp only [runSteps] at hk
    split at hk
    · exact absurd hk (applyStop_no_testFailed stop i st id2 m)
    · split at hk
      · rcases List.mem_append.mp hk with hk | hk
        · exact absurd hk (applyStop_no_testFailed stop i st id2 m)
        · simp at hk
      · rcases List.mem_append.mp hk with hk | hk
        · exact absurd hk (applyStop_no_testFailed stop i st id2 m)
        · simp at hk
      · rcases List.mem_append.mp hk with hk | hk
        · rcases List.mem_append.mp hk with hk | hk
          · exact absurd hk (applyStop_no_testFailed stop i st id2 m)
          · simp at hk
        · exact absurd hk (ih (i + 1) _ id2 m)

/-- `forceStopTest` with the running execution's own id, while replaying:
the run is stopped, the replay state reset, the store cleared, and a
force-stopped completion notice sent. -/
theorem forceStopTest_matching (eid : String) (st : EngineState)
    (hid : st.currentExecutionId = some eid) (hrep : st.isReplaying = true) :
    forceStopTest (some eid) st =
      ({ st with isTestInterrupted := true, isReplaying := false,
                 currentExecutionId := none, store := none },
       [.testCompletedMsg (some eid) true]) := by
  unfold forceStopTest
  rw [hid, hrep]
  simp

/-- `forceStopTest` with a truthy id that mismatches the truthy id of the
current run returns without touching anything. -/
theorem forceStopTest_mismatch (s eid : String) (st : EngineState)
    (hs : s ≠ "") (heid : eid ≠ "") (hne : eid ≠ s)
    (hid : st.currentExecutionId = some eid) :
    forceStopTest (some s) st = (st, []) := by
  unfold forceStopTest
  rw [hid]
  simp [hs, heid, hne]

/-- A stop signal scheduled for a different boundary is not delivered. -/
theorem applyStop_skip (j : Nat) (sid : Option String) (i : Nat)
    (st : EngineState) (h : j ≠ i) :
    applyStop (some (j, sid)) i st = (st, []) := by
  simp [applyStop, h]

/-- Loop unfolding: an iteration whose stop delivery is inert and whose
step executes normally recurses on the tail with the state persisted at the
next index. -/
theorem runSteps_cons_ok (test : TestData) (stop : Option (Nat × Option String))
    (step : Step) (rem : List Step) (i : Nat) (st : EngineState)
    (hstop : applyStop stop i st = (st, []))
    (hrep : st.isReplaying = true) (hint : st.isTestInterrupted = false)
    (hok : executeStep st.page false step = .ok) :
    runSteps test stop (step :: rem) i st =
      ((runSteps test stop rem (i + 1) (saveTestExecutionState test (i + 1) st)).1,
       [.progress (i + 1), .stepExecuted i] ++
         (runSteps test stop rem (i + 1) (saveTestExecutionState test (i + 1) st)).2.1,
       (runSteps test stop rem (i + 1) (saveTestExecutionState test (i + 1) st)).2.2) := by
  simp only [runSteps, hstop]
  dsimp only [saveTestExecutionState]
  rw [hrep, hint]
  simp only [Bool.not_true, Bool.false_or, Bool.false_eq_true, if_false]
  have hok2 : executeStep st.page false step = .ok := hok
  rw [hok2]
  simp

/-- A matching stop signal delivered at boundary `j` of a run whose steps
before `j` all execute normally: the loop observes the signal at the top of
iteration `j` and halts without throwing; the final state is stopped and
interrupted, and every executed step has index below `j`. -/
theorem runSteps_stop_hit (test : TestData) (eid : String) (j : Nat) :
    ∀ rem i st, st.isReplaying = true → st.isTestInterrupted = false →
      st.currentExecutionId = some eid → i ≤ j → j - i < rem.length →
      (∀ k (hk : k < rem.length), i + k < j →
        executeStep st.page false (rem.get ⟨k, hk⟩) = .ok) →
      (runSteps test (some (j, some eid)) rem i st).2.2 = .halted ∧
      (runSteps test (some (j, some eid)) rem i st).1.isReplaying = false ∧
      (runSteps test (some (j, some eid)) rem i st).1.isTestInterrupted = true ∧
      (∀ k, Event.stepExecuted k ∈ (runSteps test (some (j, some eid)) rem i st).2.1 →
        k < j) := by
  intro rem
  induction rem with
  | nil =>
    intro i st _ _ _ _ hlen _
    simp at hlen
  | cons step rem ih =>
    intro i st hrep hint hid hij hlen hok
    by_cases hji : j = i
    · subst hji
      simp only [runSteps, applyStop, if_pos rfl]
      rw [forceStopTest_matching eid st hid hrep]
      simp
    · have hij' : i < j := by omega
      have hok0 : executeStep st.page false step = .ok := by
        have := hok 0 (by simp) (by omega)
        simpa using this
      rw [runSteps_cons_ok test _ step rem i st
        (applyStop_skip j (some eid) i st hji) hrep hint hok0]
      have hrec := ih (i + 1) (saveTestExecutionState test (i + 1) st)
        (by simpa [saveTestExecutionState] using hrep)
        (by simpa [saveTestExecutionState] using hint)
        (by simpa [saveTestExecutionState] using hid)
        (by omega) (by simp only [List.length_cons] at hlen; omega)
        (by
          intro k hk hkj
          have := hok (k + 1) (by simpa : k + 1 < (step :: rem).length) (by omega)
          simpa using this)
      refine ⟨hrec.1, hrec.2.1, hrec.2.2.1, ?_⟩
      intro k hk
      rcases List.mem_append.mp hk with hk | hk
      · simp at hk
        omega
      · exact hrec.2.2.2 k hk

/-- A stop signal carrying a truthy execution id different from the
running execution's truthy id is ignored at every boundary: the run is
exactly the unstopped run. -/
theorem runSteps_stop_mismatch (test : TestData) (j : Nat) (s eid : String)
    (hs : s ≠ "") (heid : eid ≠ "") (hne : eid ≠ s) :
    ∀ rem i st, st.currentExecutionId = some eid →
      runSteps test (some (j, some s)) rem i st = runSteps test none rem i st := by
  intro rem
  induction rem with
  | nil =>
    intro i st hid
    simp only [runSteps]
    by_cases hji : j = i
    · subst hji
      simp only [applyStop, if_pos rfl]
      rw [forceStopTest_mismatch s eid st hs heid hne hid]
      simp
    · rw [applyStop_skip j (some s) i st hji]
      rfl
  | cons step rem ih =>
    intro i st hid
    have hstop : applyStop (some (j, some s)) i st = (st, []) := by
      by_cases hji : j = i
      · subst hji
        simp only [applyStop, if_pos rfl]
        exact forceStopTest_mismatch s eid st hs heid hne hid
      · exact applyStop_skip j (some s) i st hji
    simp only [runSteps]
    rw [hstop]
    simp only [applyStop]
    by_cases hc : (!st.isReplaying || st.isTestInterrupted) = true
    · simp [hc]
    · simp only [Bool.not_eq_true] at hc
      rw [if_neg (by simp [hc]), if_neg (by simp [hc])]
      cases hex : executeStep (saveTestExecutionState test (i + 1) st).page
          (saveTestExecutionState test (i + 1) st).isTestInterrupted step with
      | ok =>
        rw [ih (i + 1) (saveTestExecutionState test (i + 1) st)
          (by simpa [saveTestExecutionState] using hid)]
      | navigated u => rfl
      | thrown msg => rfl

/-- Loop unfolding: a running, uninterrupted iteration whose step navigates
ends the run as navigation-pending, with the Execution State persisted at
the *next* index (`i + 1`) and the page moved to the target URL. -/
theorem runSteps_nav (test : TestData) (step : Step) (rem : List Step) (i : Nat)
    (st : EngineState) (u : String)
    (hrep : st.isReplaying = true) (hint : st.isTestInterrupted = false)
    (hnav : executeStep st.page false step = .navigated u) :
    runSteps test none (step :: rem) i st =
      ({ saveTestExecutionState test (i + 1) st with
           page := { st.page with url := u } },
       [.progress (i + 1), .stepExecuted i], .navigationPending u) := by
  simp only [runSteps, applyStop]
  dsimp only [saveTestExecutionState]
  rw [hrep, hint]
  simp only [Bool.not_true, Bool.false_or, Bool.false_eq_true, if_false]
  have hnav2 : executeStep st.page false step = .navigated u := hnav
  rw [hnav2]
  simp

/-- Whatever happens during a resumed run, every step it executes has index
at least the persisted `currentStepIndex`. -/
theorem resumeTest_stepExecuted_ge (es : ExecState)
    (stop : Option (Nat × Option String)) (st : EngineState) (k : Nat) :
    Event.stepExecuted k ∈ (resumeTest es stop st).2.1 →
      es.currentStepIndex ≤ k := by
  unfold resumeTest
  by_cases h : st.isReplaying = true
  · simp [h]
  · simp only [Bool.not_eq_true] at h
    rw [if_neg (by simp [h])]
    intro hk
    simp only [executeTestSteps] at hk
    split at hk
    · rcases List.mem_append.mp hk with hk | hk
      · exact runSteps_stepExecuted_ge es.testData stop _ _ _ k hk
      · simp [handleTestFailure] at hk
    · exact runSteps_stepExecuted_ge es.testData stop _ _ _ k hk

/-! ## Resolver lemmas -/

/-- One attempt with a truthy expected text, over a successfully queried
match list: the first text-matching element in document order if it is
visible, nothing otherwise. -/
theorem attemptFind_text (doc : Document) (sel t : String) (elements : List Elem)
    (hq : doc.queryAll sel = some elements) (ht : jsTrim t ≠ "") :
    attemptFind doc sel (some t) true =
      match elements.find? (fun x => jsTrim x.textContent == t) with
      | some el => if el.visible then some el else none
      | none => none := by
  have htt : expectedTextTruthy (some t) = true := by
    simp [expectedTextTruthy, ht]
  unfold attemptFind
  rw [hq]
  dsimp only
  by_cases hlen : elements.length > 0
  · rw [if_pos hlen]
    simp only [htt, if_true, Option.getD_some]
    cases hfind : elements.find? (fun x => jsTrim x.textContent == t) with
    | none => rfl
    | some el => simp [waitForElementToBeVisible]
  · rw [if_neg hlen]
    have hnil : elements = [] := by
      cases elements with
      | nil => rfl
      | cons a l => simp at hlen
    subst hnil
    simp

/-- On a valid selector with at least one allowed attempt, the retry loop's
result is the single-attempt result. -/
theorem findElementWithRetry_eval (doc : Document) (sel : String)
    (t : Option String) (n : Nat) (wf : Bool)
    (hv : isValidSelector doc sel = true) (hn : 0 < n) :
    (findElementWithRetry doc sel t n wf).1 = attemptFind doc sel t wf := by
  unfold findElementWithRetry
  rw [hv]
  simp only [Bool.not_true, Bool.false_eq_true, if_false]
  rw [retryLoop_const]
  cases h : attemptFind doc sel t wf with
  | none => simp
  | some el =>
    have : ¬ n = 0 := by omega
    simp [this]

/-! ## Concrete fixtures used by witnesses and counterexamples -/

/-- A bland visible element with no identifying attributes. -/
def baseElem : Elem where
  tagName := "DIV"
  id := ""
  name := ""
  className := ""
  textContent := ""
  dataTestid := none
  dataCy := none
  dataTest := none
  ariaLabel := none
  role := none
  visible := true
  chain := []

/-- An element carrying both a `name` and a `data-cy` attribute. -/
def elemNameCy : Elem :=
  { baseElem with tagName := "BUTTON", name := "n", dataCy := some "c" }

/-- A document in which both the `[name="n"]` and the `[data-cy="c"]`
selectors are valid and match exactly `elemNameCy`. -/
def docNameCy : Document where
  queryAll := fun s =>
    if s = "[name=\"n\"]" then some [elemNameCy]
    else if s = "[data-cy=\"c\"]" then some [elemNameCy]
    else some []

/-- An element carrying only a `data-cy` attribute. -/
def elemCyOnly : Elem := { baseElem with dataCy := some "c2" }

/-- A document in which only `[data-cy="c2"]` matches uniquely. -/
def docCyOnly : Document where
  queryAll := fun s =>
    if s = "[data-cy=\"c2\"]" then some [elemCyOnly] else some []

/-- A document where `"%%"` is syntactically invalid and every other
selector is valid; `".missing"` in particular matches nothing. -/
def docMiss : Document where
  queryAll := fun s => if s = "%%" then none else some []

def pageMiss : Page where
  url := "https://example.test/"
  doc := docMiss

def stepInvalidSel : Step := { type := .click, selector := "%%" }

def stepMissingSel : Step := { type := .click, selector := ".missing" }

/-- Elements with text contents "A" and "B". -/
def elemTextA : Elem := { baseElem with textContent := "A" }

def elemTextB : Elem := { baseElem with textContent := "B" }

/-- A document where `".s"` matches the elements with texts
`["A", "B"]` in that document order. -/
def docAB : Document where
  queryAll := fun s => if s = ".s" then some [elemTextA, elemTextB] else some []

/-- 1×1 images for differ witnesses. -/
def imgGray : Image := { width := 1, height := 1, pixel := fun _ _ => (5, 5, 5) }

def imgWhite : Image := { width := 1, height := 1, pixel := fun _ _ => (255, 255, 255) }

def imgBlack : Image := { width := 1, height := 1, pixel := fun _ _ => (0, 0, 0) }

/-- An image wider than the 5000-pixel dimension cap. -/
def imgTooWide : Image := { width := 5001, height := 1, pixel := fun _ _ => (0, 0, 0) }

/-- Elements found by `#x` / `#y` clicks in the replay fixtures. -/
def elemX : Elem := { baseElem with tagName := "BUTTON", id := "x" }

def elemY : Elem := { baseElem with tagName := "BUTTON", id := "y" }

def docXY : Document where
  queryAll := fun s =>
    if s = "#x" then some [elemX]
    else if s = "#y" then some [elemY]
    else some []

def pageB : Page := { url := "https://site.test/b", doc := docXY }

def pageA : Page := { url := "https://site.test/a", doc := docXY }

def navStep : Step := { type := .navigation, action := "start", toUrl := "https://site.test/a" }

def clickX : Step := { type := .click, selector := "#x" }

def clickY : Step := { type := .click, selector := "#y" }

/-- The claim's resume scenario: `[navigation(urlA), click(X), click(Y)]`. -/
def testNav : TestData where
  name := "nav-test"
  steps := [navStep, clickX, clickY]

/-- A running engine state at `urlB` (not the test's start URL). -/
def stRunB : EngineState where
  isReplaying := true
  isTestInterrupted := false
  currentExecutionId := some "e7"
  store := none
  page := pageB

/-- An idle engine state on the navigated-to page, holding the persisted
Execution State at index 1. -/
def stIdleA : EngineState where
  isReplaying := false
  isTestInterrupted := false
  currentExecutionId := none
  store := some { testData := testNav, currentStepIndex := 1 }
  page := pageA

/-- A test whose single click targets a selector that matches nothing. -/
def testFailing : TestData where
  name := "t-fail"
  steps := [{ type := .click, selector := ".missing" }]

/-- A test with one resolvable click. -/
def testOneClick : TestData where
  name := "t-ok"
  steps := [{ type := .click, selector := "#x" }]

/-- A test of two resolvable clicks. -/
def testTwoClicks : TestData where
  name := "t-two"
  steps := [clickX, clickY]

/-- An idle state over the `docXY` page at `urlB`, empty store. -/
def stIdleB : EngineState where
  isReplaying := false
  isTestInterrupted := false
  currentExecutionId := none
  store := none
  page := pageB

/-- An idle state over `docMiss`, empty store. -/
def stIdleMiss : EngineState where
  isReplaying := false
  isTestInterrupted := false
  currentExecutionId := none
  store := none
  page := pageMiss

/-- A state in which a replay tagged `run1` is underway, with its persisted
Execution State present. -/
def stRunning : EngineState where
  isReplaying := true
  isTestInterrupted := false
  currentExecutionId := some "run1"
  store := some { testData := testTwoClicks, currentStepIndex := 1 }
  page := pageB

/-- The caller-visible difference percentage of a comparison, when it
succeeds. -/
def diffPercentageOf (b c : Image) : Option ℚ :=
  (compareScreenshots b c).toOption.map (fun r => r.differencePercentage)

/-- Characterization of a successful comparison: its fields and the
dimension bounds that let it run. -/
theorem compareScreenshots_ok_char (b c : Image) (r : DiffResult)
    (h : compareScreenshots b c = .ok r) :
    r.diffPixels = diffPixelCount b c (max b.width c.width) (max b.height c.height) ∧
    r.totalPixels = max b.width c.width * max b.height c.height ∧
    r.differencePercentage = (r.diffPixels : ℚ) / (r.totalPixels : ℚ) * 100 ∧
    0 < max b.width c.width ∧ max b.width c.width ≤ 5000 ∧
    0 < max b.height c.height ∧ max b.height c.height ≤ 5000 := by
  simp only [compareScreenshots] at h
  split at h
  · simp at h
  · rename_i hcond
    cases h
    simp only [Bool.or_eq_true, decide_eq_true_eq, not_or] at hcond
    refine ⟨rfl, rfl, rfl, ?_, ?_, ?_, ?_⟩ <;> omega

/-! ## Claim theorems -/

/-- C4: for the visual differ, comparing an image with itself yields
`differencePercentage = 0` whenever the comparison succeeds; every
successful comparison's `differencePercentage` lies in `[0, 100]`; and
swapping the baseline and current images yields the same caller-visible
`differencePercentage` (including the rejection cases, which are symmetric
too). -/
theorem visualDiff_zero_bounds_symm (img img1 img2 : Image) :
    (∀ q, diffPercentageOf img img = some q → q = 0) ∧
    (∀ q, diffPercentageOf img1 img2 = some q → 0 ≤ q ∧ q ≤ 100) ∧
    diffPercentageOf img1 img2 = diffPercentageOf img2 img1 := by
  refine ⟨?_, ?_, ?_⟩
  · intro q hq
    unfold diffPercentageOf at hq
    cases hc : compareScreenshots img img with
    | error e => rw [hc] at hq; simp [Except.toOption] at hq
    | ok r =>
      rw [hc] at hq
      have hq2 : r.differencePercentage = q := by simpa [Except.toOption] using hq
      obtain ⟨h1, h2, h3, _⟩ := compareScreenshots_ok_char img img r hc
      rw [← hq2, h3, h1, diffPixelCount_self]
      simp
  · intro q hq
    unfold diffPercentageOf at hq
    cases hc : compareScreenshots img1 img2 with
    | error e => rw [hc] at hq; simp [Except.toOption] at hq
    | ok r =>
      rw [hc] at hq
      have hq2 : r.differencePercentage = q := by simpa [Except.toOption] using hq
      obtain ⟨h1, h2, h3, hw, _, hh, _⟩ := compareScreenshots_ok_char img1 img2 r hc
      have hcount : r.diffPixels ≤ r.totalPixels := by
        rw [h1, h2]; exact diffPixelCount_le img1 img2 _ _
      have htot : 0 < r.totalPixels := by
        rw [h2]; exact Nat.mul_pos hw hh
      constructor
      · rw [← hq2, h3]
        positivity
      · rw [← hq2, h3]
        calc (r.diffPixels : ℚ) / (r.totalPixels : ℚ) * 100 ≤ 1 * 100 := by
              apply mul_le_mul_of_nonneg_right _ (by norm_num)
              rw [div_le_one (by exact_mod_cast htot)]
              exact_mod_cast hcount
          _ = 100 := one_mul 100
  · unfold diffPercentageOf compareScreenshots
    rw [Nat.max_comm img2.width img1.width, Nat.max_comm img2.height img1.height]
    dsimp only
    rw [diffPixelCount_comm img1 img2]
    by_cases hcond : (max img1.width img2.width = 0 ∨ max img1.height img2.height = 0 ∨
        max img1.width img2.width > 5000 ∨ max img1.height img2.height > 5000)
    · rw [if_pos (by simp only [Bool.or_eq_true, decide_eq_true_eq]; omega),
        if_pos (by simp only [Bool.or_eq_true, decide_eq_true_eq]; omega)]
    · rw [if_neg (by simp only [Bool.or_eq_true, decide_eq_true_eq]; omega),
        if_neg (by simp only [Bool.or_eq_true, decide_eq_true_eq]; omega)]
      simp [Except.toOption]

/-- C4 witness: a 1×1 self-comparison succeeds with percentage 0 and a 1×1
white/black comparison succeeds with a percentage inside `[0, 100]`. -/
theorem visualDiff_zero_bounds_symm_witness :
    diffPercentageOf imgGray imgGray =
      some ((((0 : Nat) : ℚ)) / (((1 : Nat) : ℚ)) * 100) ∧
    ((((0 : Nat) : ℚ)) / (((1 : Nat) : ℚ)) * 100) = 0 ∧
    diffPercentageOf imgWhite imgBlack =
      some ((((1 : Nat) : ℚ)) / (((1 : Nat) : ℚ)) * 100) ∧
    (0 ≤ (((1 : Nat) : ℚ)) / (((1 : Nat) : ℚ)) * 100 ∧
      (((1 : Nat) : ℚ)) / (((1 : Nat) : ℚ)) * 100 ≤ 100) :=
  ⟨rfl, (visualDiff_zero_bounds_symm imgGray imgGray imgGray).1 _ rfl,
   rfl, (visualDiff_zero_bounds_symm imgGray imgWhite imgBlack).2.1 _ rfl⟩

/-- C5: on dimension-valid inputs, the differ succeeds and computes exactly
the specification's algorithm: the canvas is the maximum width × maximum
height of the two images, a pixel counts as different exactly when the mean
absolute difference of its three color channels exceeds 10, and
`differencePercentage = differentPixels / totalPixels * 100`. -/
theorem compareScreenshots_matches_spec (b c : Image)
    (hw : 0 < max b.width c.width) (hw5 : max b.width c.width ≤ 5000)
    (hh : 0 < max b.height c.height) (hh5 : max b.height c.height ≤ 5000) :
    ∃ r, compareScreenshots b c = .ok r ∧
      r.totalPixels = max b.width c.width * max b.height c.height ∧
      r.diffPixels = (specDifferentPixels b c (max b.width c.width)
        (max b.height c.height)).card ∧
      r.differencePercentage = specDifferencePercentage b c := by
  unfold compareScreenshots
  rw [if_neg (by simp only [Bool.or_eq_true, decide_eq_true_eq, not_or]; omega)]
  refine ⟨_, rfl, rfl, ?_, ?_⟩
  · exact diffPixelCount_eq_card b c _ _ hw
  · show ((diffPixelCount b c _ _ : ℚ)) / _ * 100 = _
    unfold specDifferencePercentage
    rw [diffPixelCount_eq_card b c _ _ hw]

/-- C5 witness: the 1×1 white/black comparison, with its spec-side values. -/
theorem compareScreenshots_matches_spec_witness :
    (0 < max imgWhite.width imgBlack.width ∧ max imgWhite.width imgBlack.width ≤ 5000 ∧
      0 < max imgWhite.height imgBlack.height ∧
      max imgWhite.height imgBlack.height ≤ 5000) ∧
    (∃ r, compareScreenshots imgWhite imgBlack = .ok r ∧
      r.totalPixels = max imgWhite.width imgBlack.width *
        max imgWhite.height imgBlack.height ∧
      r.diffPixels = (specDifferentPixels imgWhite imgBlack
        (max imgWhite.width imgBlack.width) (max imgWhite.height imgBlack.height)).card ∧
      r.differencePercentage = specDifferencePercentage imgWhite imgBlack) :=
  ⟨by decide,
   compareScreenshots_matches_spec imgWhite imgBlack
     (by decide) (by decide) (by decide) (by decide)⟩

/-- C10: a pair of decoded images whose maximum dimension is 0 or exceeds
5000 is rejected with the invalid-dimensions failure and yields no Visual
Diff Result; a successful comparison (the per-pixel loop) happens exactly
when both maximum dimensions lie in `(0, 5000]`. -/
theorem compareScreenshots_dimension_guard (b c : Image) :
    ((max b.width c.width = 0 ∨ max b.height c.height = 0 ∨
        5000 < max b.width c.width ∨ 5000 < max b.height c.height) →
      compareScreenshots b c = .error ("Invalid image dimensions: " ++
        toString (max b.width c.width) ++ "x" ++ toString (max b.height c.height))) ∧
    ((∃ r, compareScreenshots b c = .ok r) ↔
      (0 < max b.width c.width ∧ max b.width c.width ≤ 5000 ∧
        0 < max b.height c.height ∧ max b.height c.height ≤ 5000)) := by
  constructor
  · intro hbad
    unfold compareScreenshots
    rw [if_pos (by simp only [Bool.or_eq_true, decide_eq_true_eq]; omega)]
  · constructor
    · rintro ⟨r, hr⟩
      obtain ⟨_, _, _, h⟩ := compareScreenshots_ok_char b c r hr
      exact ⟨h.1, h.2.1, h.2.2.1, h.2.2.2⟩
    · intro hgood
      unfold compareScreenshots
      rw [if_neg (by simp only [Bool.or_eq_true, decide_eq_true_eq, not_or]; omega)]
      exact ⟨_, rfl⟩

/-- C10 witness: a 5001-wide comparison is rejected with the
invalid-dimensions error; a 1×1 comparison succeeds. -/
theorem compareScreenshots_dimension_guard_witness :
    (5000 < max imgTooWide.width imgGray.width) ∧
    compareScreenshots imgTooWide imgGray = .error ("Invalid image dimensions: " ++
      toString (max imgTooWide.width imgGray.width) ++ "x" ++
      toString (max imgTooWide.height imgGray.height)) ∧
    (∃ r, compareScreenshots imgWhite imgBlack = .ok r) :=
  ⟨by decide,
   (compareScreenshots_dimension_guard imgTooWide imgGray).1
     (Or.inr (Or.inr (Or.inl (by decide)))),
   (compareScreenshots_dimension_guard imgWhite imgBlack).2.mpr (by decide)⟩

/-- C1 counterexample: an element whose `data-cy` selector and `name`
selector are both valid and uniquely matching.  The claimed priority order
(stable test-oriented attributes before `name`) would return the `data-cy`
selector; `generateSelector` returns the `name` selector, because the
source checks `name` (its priority 3) before the
`data-cy`/`data-test`/`aria-label`/`role` loop (its priority 4). -/
theorem generateSelector_order_counterexample :
    validUnique docNameCy "[data-cy=\"c\"]" = true ∧
    validUnique docNameCy "[name=\"n\"]" = true ∧
    elemNameCy.dataCy = some "c" ∧ elemNameCy.name = "n" ∧
    generateSelector docNameCy elemNameCy = "[name=\"n\"]" ∧
    "[name=\"n\"]" ≠ "[data-cy=\"c\"]" := by decide

/-- C1 (amended): `generateSelector` tries `id`, then `data-testid`, then
`name`, then the stable attributes `data-cy`/`data-test`/`aria-label`/
`role`, accepting the first valid and uniquely-matching candidate: when the
`id` and `data-testid` strategies fail and the `name` selector is valid and
unique, the `name` selector is returned; when the `name` strategy also
fails, the first accepted stable-attribute selector is returned. -/
theorem generateSelector_name_before_stable_attrs (doc : Document) (e : Elem) :
    ((e.id != "" && validUnique doc ("#" ++ escapeCssIdentifier e.id)) = false →
      (attrTruthy e.dataTestid &&
        validUnique doc (attrSelector "data-testid" (e.dataTestid.getD ""))) = false →
      (e.name != "") = true →
      validUnique doc (attrSelector "name" e.name) = true →
      generateSelector doc e = attrSelector "name" e.name) ∧
    ((e.id != "" && validUnique doc ("#" ++ escapeCssIdentifier e.id)) = false →
      (attrTruthy e.dataTestid &&
        validUnique doc (attrSelector "data-testid" (e.dataTestid.getD ""))) = false →
      (e.name != "" && validUnique doc (attrSelector "name" e.name)) = false →
      ∀ s, stableAttrCandidate doc e = some s → generateSelector doc e = s) := by
  constructor
  · intro h1 h2 h3 h4
    unfold generateSelector
    simp only [h1, h2, h3, h4, Bool.and_self, Bool.false_eq_true, if_false, if_true]
  · intro h1 h2 h3 s hs
    unfold generateSelector
    simp only [h1, h2, h3, Bool.false_eq_true, if_false]
    rw [hs]

/-- C1 witness: on the counterexample document the `name` branch fires; on
a document with only a unique `data-cy`, the stable-attribute loop fires. -/
theorem generateSelector_name_before_stable_attrs_witness :
    (elemNameCy.name != "") = true ∧
    generateSelector docNameCy elemNameCy = attrSelector "name" elemNameCy.name ∧
    generateSelector docCyOnly elemCyOnly = "[data-cy=\"c2\"]" :=
  ⟨by decide,
   (generateSelector_name_before_stable_attrs docNameCy elemNameCy).1
     (by decide) (by decide) (by decide) (by decide),
   (generateSelector_name_before_stable_attrs docCyOnly elemCyOnly).2
     (by decide) (by decide) (by decide) "[data-cy=\"c2\"]" (by decide)⟩

/-- C2 counterexample: a syntactically invalid selector (`"%%"`) and a
valid selector matching nothing (`".missing"`) surface identically to the
caller — both resolutions return `null` (the invalid one after 0 attempts,
the other after all 5), and `executeStep` turns both into the one generic
element-not-found `Error`; no distinct invalid-selector error kind exists
in the code. -/
theorem resolution_failure_kinds_counterexample :
    isValidSelector docMiss "%%" = false ∧
    findElementWithRetry docMiss "%%" none 5 true = (none, 0) ∧
    isValidSelector docMiss ".missing" = true ∧
    findElementWithRetry docMiss ".missing" none 5 true = (none, 5) ∧
    (findElementWithRetry docMiss "%%" none 5 true).1 =
      (findElementWithRetry docMiss ".missing" none 5 true).1 ∧
    executeStep pageMiss false stepInvalidSel =
      .thrown ("Element not found after retries: " ++ "%%") ∧
    executeStep pageMiss false stepMissingSel =
      .thrown ("Element not found after retries: " ++ ".missing") := by decide

/-- C2 (amended): an invalid selector fails fast — `null` after 0 attempts,
without entering the retry loop; a valid selector with no (text-filtered)
match fails after all retry attempts; and both failure kinds surface to the
caller identically, as a `null` resolution that `executeStep` converts into
the single generic element-not-found `Error` naming the selector. -/
theorem resolution_failure_surface (doc : Document) (sel : String)
    (t : Option String) (n : Nat) :
    (isValidSelector doc sel = false →
      findElementWithRetry doc sel t n true = (none, 0)) ∧
    (isValidSelector doc sel = true → attemptFind doc sel t true = none →
      findElementWithRetry doc sel t n true = (none, n)) ∧
    (∀ page step, step.type = .click →
      (findElementWithRetry page.doc step.selector step.text 5 true).1 = none →
      executeStep page false step =
        .thrown ("Element not found after retries: " ++ step.selector)) := by
  refine ⟨?_, ?_, ?_⟩
  · intro hv
    unfold findElementWithRetry
    rw [hv]
    simp
  · intro hv ha
    unfold findElementWithRetry
    rw [hv]
    simp only [Bool.not_true, Bool.false_eq_true, if_false]
    rw [retryLoop_const doc sel t true, ha]
    simp
  · intro page step htype hfind
    unfold executeStep
    rw [htype]
    dsimp only
    rw [hfind]
    rfl

/-- C2 witness: the concrete invalid/missing selectors of the
counterexample document, run through the amended statement. -/
theorem resolution_failure_surface_witness :
    findElementWithRetry docMiss "%%" none 5 true = (none, 0) ∧
    findElementWithRetry docMiss ".missing" none 5 true = (none, 5) ∧
    executeStep pageMiss false stepMissingSel =
      .thrown ("Element not found after retries: " ++ stepMissingSel.selector) :=
  ⟨(resolution_failure_surface docMiss "%%" none 5).1 (by decide),
   (resolution_failure_surface docMiss ".missing" none 5).2.1 (by decide) (by decide),
   (resolution_failure_surface docMiss ".missing" none 5).2.2 pageMiss stepMissingSel
     (by decide) (by decide)⟩

/-- C3: with a non-empty (after trimming) expected text, resolution only
ever returns an element whose trimmed text content equals the expected text
— specifically the first such element of the match list in document order —
and when no matched element has that text, resolution returns `null` even
though the unfiltered query matched; conversely the first text-matching
element is returned whenever it is visible. -/
theorem findElement_text_filter_strict (doc : Document) (sel t : String) (n : Nat)
    (ht : jsTrim t ≠ "") (hn : 0 < n) :
    (∀ el, (findElementWithRetry doc sel (some t) n true).1 = some el →
      ((doc.queryAll sel).getD []).find? (fun x => jsTrim x.textContent == t) =
        some el ∧ jsTrim el.textContent = t) ∧
    ((∀ el ∈ (doc.queryAll sel).getD [], jsTrim el.textContent ≠ t) →
      (findElementWithRetry doc sel (some t) n true).1 = none) ∧
    (∀ el, ((doc.queryAll sel).getD []).find? (fun x => jsTrim x.textContent == t) =
        some el → el.visible = true →
      (findElementWithRetry doc sel (some t) n true).1 = some el) := by
  cases hq : doc.queryAll sel with
  | none =>
    have hv : isValidSelector doc sel = false := by
      unfold isValidSelector
      rw [hq]
      rfl
    have hres : findElementWithRetry doc sel (some t) n true = (none, 0) := by
      unfold findElementWithRetry
      rw [hv]
      simp
    refine ⟨?_, ?_, ?_⟩
    · intro el hel
      rw [hres] at hel
      simp at hel
    · intro _
      rw [hres]
    · intro el hel
      simp at hel
  | some elements =>
    have hv : isValidSelector doc sel = true := by
      unfold isValidSelector
      rw [hq]
      rfl
    have hres := findElementWithRetry_eval doc sel (some t) n true hv hn
    have hatt := attemptFind_text doc sel t elements hq ht
    refine ⟨?_, ?_, ?_⟩
    · intro el hel
      rw [hres, hatt] at hel
      simp only [Option.getD_some]
      cases hfind : elements.find? (fun x => jsTrim x.textContent == t) with
      | none => rw [hfind] at hel; simp at hel
      | some el0 =>
        rw [hfind] at hel
        dsimp only at hel
        by_cases hvis : el0.visible = true
        · rw [if_pos hvis] at hel
          cases hel
          refine ⟨rfl, ?_⟩
          have := List.find?_some hfind
          exact eq_of_beq this
        · rw [if_neg hvis] at hel
          simp at hel
    · intro hall
      rw [hres, hatt]
      have hfind : elements.find? (fun x => jsTrim x.textContent == t) = none := by
        rw [List.find?_eq_none]
        intro x hx
        have := hall x (by simp only [Option.getD_some]; exact hx)
        simpa using this
      rw [hfind]
    · intro el hel hvis
      simp only [Option.getD_some] at hel
      rw [hres, hatt, hel]
      dsimp only
      rw [if_pos hvis]

/-- C3 witness: a selector matching texts `["A", "B"]`; expected text "B"
resolves to the "B" element on the first attempt, expected text "C" fails
as not-found after all attempts. -/
theorem findElement_text_filter_strict_witness :
    jsTrim "B" ≠ "" ∧
    findElementWithRetry docAB ".s" (some "B") 5 true = (some elemTextB, 1) ∧
    ((docAB.queryAll ".s").getD []).find?
      (fun x => jsTrim x.textContent == "B") = some elemTextB ∧
    jsTrim elemTextB.textContent = "B" ∧
    (findElementWithRetry docAB ".s" (some "C") 5 true).1 = none :=
  ⟨by decide, by decide,
   ((findElement_text_filter_strict docAB ".s" "B" 5 (by decide) (by decide)).1
     elemTextB (by decide)).1,
   ((findElement_text_filter_strict docAB ".s" "B" 5 (by decide) (by decide)).1
     elemTextB (by decide)).2,
   (findElement_text_filter_strict docAB ".s" "C" 5 (by decide) (by decide)).2.1
     (by decide)⟩

/-- C6: a `replayTest` request issued while a replay is already running in
the tab is rejected outright — the request does not start, emits no
events, and leaves the whole engine state (including the persisted
Execution State and the running execution's id) untouched. -/
theorem replayTest_at_most_one_per_tab (test : TestData)
    (executionId : Option String) (stop : Option (Nat × Option String))
    (st : EngineState) (h : st.isReplaying = true) :
    replayTest test executionId stop st = (st, [], .rejected) := by
  unfold replayTest
  rw [if_pos h]

/-- C6 witness: a duplicate request against a running state with a
persisted Execution State is rejected with that state unchanged. -/
theorem replayTest_at_most_one_per_tab_witness :
    stRunning.isReplaying = true ∧
    replayTest testNav (some "dup") none stRunning = (stRunning, [], .rejected) :=
  ⟨rfl, replayTest_at_most_one_per_tab testNav (some "dup") none stRunning rfl⟩

/-- C7: executing step `i` persists Execution State with
`currentStepIndex = i + 1` (visible at the navigation discontinuity, where
only the persisted state survives), and a resume from a persisted index
executes only steps from that index on — never an earlier step. -/
theorem resume_continuity (test : TestData) (st : EngineState) (i : Nat)
    (step : Step) (rem : List Step) (u : String)
    (hrep : st.isReplaying = true) (hint : st.isTestInterrupted = false)
    (hdrop : test.steps.drop i = step :: rem)
    (hnav : executeStep st.page false step = .navigated u) :
    (executeTestSteps test i none st).1.store =
      some { testData := test, currentStepIndex := i + 1 } ∧
    (executeTestSteps test i none st).2.2 = .navigationPending u ∧
    (executeTestSteps test i none st).2.1 = [.progress (i + 1), .stepExecuted i] ∧
    (∀ st2 k, Event.stepExecuted k ∈
        (resumeTest { testData := test, currentStepIndex := i + 1 } none st2).2.1 →
      i + 1 ≤ k) := by
  have hn := runSteps_nav test step rem i st u hrep hint hnav
  refine ⟨?_, ?_, ?_, ?_⟩
  · unfold executeTestSteps
    rw [hdrop, hn]
    rfl
  · unfold executeTestSteps
    rw [hdrop, hn]
  · unfold executeTestSteps
    rw [hdrop, hn]
  · intro st2 k hk
    exact resumeTest_stepExecuted_ge
      { testData := test, currentStepIndex := i + 1 } none st2 k hk

/-- C7 witness: the claim's scenario — `[navigation(urlA), click(X),
click(Y)]` replayed from `urlB` persists index 1 at the navigation, and
resuming from that state executes exactly steps 1 and 2 and completes. -/
theorem resume_continuity_witness :
    (executeTestSteps testNav 0 none stRunB).1.store =
      some { testData := testNav, currentStepIndex := 1 } ∧
    (executeTestSteps testNav 0 none stRunB).2.2 =
      .navigationPending "https://site.test/a" ∧
    (resumeTest { testData := testNav, currentStepIndex := 1 } none stIdleA).2.1 =
      [.progress 2, .stepExecuted 1, .progress 3, .stepExecuted 2,
       .testCompletedMsg none false] ∧
    (resumeTest { testData := testNav, currentStepIndex := 1 } none stIdleA).2.2 =
      .ran .completed :=
  ⟨(resume_continuity testNav stRunB 0 navStep [clickX, clickY] "https://site.test/a"
      rfl rfl rfl (by decide)).1,
   (resume_continuity testNav stRunB 0 navStep [clickX, clickY] "https://site.test/a"
      rfl rfl rfl (by decide)).2.1,
   by decide, by decide⟩

/-- C8: the claim is right and the code is wrong.  On the success path the
persisted Execution State is cleared, but on the failure path
`handleTestFailure` resets only the in-memory flags and never sends
`clearTestExecutionState`: after a failed run the per-tab store still holds
the Execution State at the failing step's next index, so the background's
page-load listener will resume the failed run. -/
theorem testFailure_leaves_execution_state :
    (replayTest testFailing (some "e8") none stIdleMiss).2.2 =
      .ran (.errored "Element not found after retries: .missing") ∧
    (replayTest testFailing (some "e8") none stIdleMiss).2.1 =
      [.progress 1, .testFailedMsg (some "e8")
        "Element not found after retries: .missing"] ∧
    (replayTest testFailing (some "e8") none stIdleMiss).1.isReplaying = false ∧
    (replayTest testFailing (some "e8") none stIdleMiss).1.store =
      some { testData := testFailing, currentStepIndex := 1 } ∧
    (replayTest testOneClick (some "e9") none stIdleB).2.2 = .ran .completed ∧
    (replayTest testOneClick (some "e9") none stIdleB).1.store = none := by decide

/-- C9: a stop signal tagged with the running execution's id, delivered at
the boundary of step `j` of a run whose earlier steps execute normally, is
observed at the top of the per-step loop: the run halts (no exception
propagates), becomes interrupted, executes no step with index `≥ j`, and no
failure report is ever emitted; a stop signal tagged with a different
(truthy) execution id leaves the run exactly as if no signal existed. -/
theorem stop_signal_interrupts (test : TestData) (eid : String) (j : Nat)
    (st : EngineState) (hidle : st.isReplaying = false)
    (hj : j < test.steps.length)
    (hok : ∀ k (hk : k < test.steps.length), k < j →
      executeStep st.page false (test.steps.get ⟨k, hk⟩) = .ok) :
    ((replayTest test (some eid) (some (j, some eid)) st).2.2 = .ran .halted) ∧
    (∀ id2 m, Event.testFailedMsg id2 m ∉
      (replayTest test (some eid) (some (j, some eid)) st).2.1) ∧
    (∀ k, Event.stepExecuted k ∈
      (replayTest test (some eid) (some (j, some eid)) st).2.1 → k < j) ∧
    ((replayTest test (some eid) (some (j, some eid)) st).1.isReplaying = false) ∧
    ((replayTest test (some eid) (some (j, some eid)) st).1.isTestInterrupted = true) ∧
    (∀ s, s ≠ "" → eid ≠ "" → eid ≠ s →
      replayTest test (some eid) (some (j, some s)) st =
        replayTest test (some eid) none st) := by
  have hhit := runSteps_stop_hit test eid j test.steps 0
    { st with isTestInterrupted := false, currentExecutionId := some eid,
              isReplaying := true }
    rfl rfl rfl (Nat.zero_le j) (by simpa using hj)
    (fun k hk h0 => hok k hk (by omega))
  have hre : replayTest test (some eid) (some (j, some eid)) st =
      ((runSteps test (some (j, some eid)) test.steps 0
          { st with isTestInterrupted := false, currentExecutionId := some eid,
                    isReplaying := true }).1,
       (runSteps test (some (j, some eid)) test.steps 0
          { st with isTestInterrupted := false, currentExecutionId := some eid,
                    isReplaying := true }).2.1, .ran .halted) := by
    unfold replayTest
    rw [if_neg (by simp [hidle])]
    simp only [executeTestSteps, List.drop_zero]
    rw [hhit.1]
    dsimp only
    rw [hhit.2.1]
    simp
  refine ⟨?_, ?_, ?_, ?_, ?_, ?_⟩
  · rw [hre]
  · intro id2 m
    rw [hre]
    exact runSteps_no_testFailed test _ test.steps 0 _ id2 m
  · intro k hk
    rw [hre] at hk
    exact hhit.2.2.2 k hk
  · rw [hre]
    exact hhit.2.1
  · rw [hre]
    exact hhit.2.2.1
  · intro s hs heid hne
    unfold replayTest
    rw [if_neg (by simp [hidle]), if_neg (by simp [hidle])]
    simp only [executeTestSteps, List.drop_zero]
    rw [runSteps_stop_mismatch test j s eid hs heid hne test.steps 0
      { st with isTestInterrupted := false, currentExecutionId := some eid,
                isReplaying := true } rfl]

/-- C9 witness: a two-click run stopped at the boundary of step 1 with its
own id halts interrupted; stopping with a different id leaves the run
exactly as the unstopped one. -/
theorem stop_signal_interrupts_witness :
    ((replayTest testTwoClicks (some "e9") (some (1, some "e9")) stIdleB).2.2 =
      .ran .halted) ∧
    ((replayTest testTwoClicks (some "e9") (some (1, some "e9")) stIdleB).1.isTestInterrupted
      = true) ∧
    (replayTest testTwoClicks (some "e9") (some (1, some "other")) stIdleB =
      replayTest testTwoClicks (some "e9") none stIdleB) := by
  have h := stop_signal_interrupts testTwoClicks "e9" 1 stIdleB rfl (by decide)
    (by
      intro k hk hkj
      have hk0 : k = 0 := by omega
      subst hk0
      have hstep : testTwoClicks.steps.get ⟨0, hk⟩ = clickX := rfl
      rw [hstep]
      decide)
  exact ⟨h.1, h.2.2.2.2.1, h.2.2.2.2.2 "other" (by decide) (by decide) (by decide)⟩

end E2E
